import Mathlib

/-!
Verification of the WorkOS Rust SDK's shared request/response contract:
the response classifier (error taxonomy) and the cursor pagination
protocol, together with representative operations (FGA check, deletes,
lists, organization-domain verify, device-code authentication) and the
untagged relation-rule decoder.

Rust source is embedded shallowly: JSON values are an inductive type,
HTTP responses are a status plus a body exposing its two reads
(JSON-decoded and text), fallible pipelines return `Except`, and
`async` boundaries (URL join, network send) are passed in as explicit
`Except` inputs.
-/

namespace WorkOsSpec

/-- A JSON value (shallow embedding of `serde_json::Value`; numbers are
modelled as integers, which suffices for every claim considered). -/
inductive Json where
  | null : Json
  | bool (b : Bool) : Json
  | num (n : Int) : Json
  | str (s : String) : Json
  | arr (elems : List Json) : Json
  | obj (fields : List (String × Json)) : Json


/-- First binding of a key in a JSON object's field list, `none` on
non-objects (mirrors `serde_json::Value::get` on the claims' inputs). -/
def Json.get : Json → String → Option Json
  | .obj fields, key => (fields.find? (fun f => f.1 = key)).map (·.2)
  | _, _ => none

/-- `Value::as_bool`. -/
def Json.as_bool : Json → Option Bool
  | .bool b => some b
  | _ => none

/-- `Value::as_str`. -/
def Json.as_str : Json → Option String
  | .str s => some s
  | _ => none

/-- A JSON or text body (src/core/error.rs, `JsonOrText`). -/
inductive JsonOrText where
  | Json (value : Json) : JsonOrText
  | Text (s : String) : JsonOrText


/-- A `url::ParseError` (opaque payload). -/
structure UrlParseErr where
  msg : String


/-- A `std::net::AddrParseError` (opaque payload). -/
structure AddrParseErr where
  msg : String


/-- A `reqwest::Error`: either a network-level failure or a body-decode
failure (both surface through the same `reqwest::Error` type). -/
inductive ReqwestErr where
  | network (msg : String) : ReqwestErr
  | decode (msg : String) : ReqwestErr


/-- A WorkOS SDK error (src/core/error.rs, `WorkOsError<E>`), with all
six declared variants. -/
inductive WorkOsError (E : Type) where
  | Operation (e : E) : WorkOsError E
  | Unauthorized : WorkOsError E
  | Unknown (status : Nat) (body : JsonOrText) : WorkOsError E
  | UrlParseError (e : UrlParseErr) : WorkOsError E
  | IpAddrParseError (e : AddrParseErr) : WorkOsError E
  | RequestError (e : ReqwestErr) : WorkOsError E


/-- A WorkOS SDK result (src/core/error.rs, `WorkOsResult<T, E>`). -/
def WorkOsResult (T E : Type) := Except (WorkOsError E) T

/-- An HTTP response body, exposed through its two reads exactly as the
classifier consumes it: `asJson` is the result of attempting a JSON
decode (`Response::json`), `asText` the best-effort text read
(`Response::text`, lossy for non-UTF8 bytes, hence total). -/
structure Body where
  asJson : Option Json
  asText : String


/-- A completed HTTP response: status code plus unconsumed body. -/
structure Response where
  status : Nat
  body : Body


/-- `StatusCode::is_success`: the 2xx range. -/
def isSuccessStatus (s : Nat) : Bool := 200 ≤ s && s < 300

/-- Modelled from the spec: `ResponseExt::handle_unauthorized_or_generic_error`
(declared and called throughout src, implementation not under src). Per
spec §4.1: status 401 returns `Unauthorized` immediately without reading
the body; any other non-success status decodes the body as JSON, wrapping
success as `Unknown{status, Json(value)}` and decode failure as
`Unknown{status, Text(string)}`, never raising; a success status returns
the unconsumed response for the caller to decode. -/
def handle_unauthorized_or_generic_error {E : Type} (response : Response) :
    Except (WorkOsError E) Response :=
  if response.status = 401 then
    .error .Unauthorized
  else if isSuccessStatus response.status then
    .ok response
  else
    match response.body.asJson with
    | some value => .error (.Unknown response.status (.Json value))
    | none => .error (.Unknown response.status (.Text response.body.asText))

/-- An error returned from `Check` (src/fga/operations/check.rs,
`CheckError`). -/
inductive CheckError where
  | NotAllowed : CheckError


/-- `Check::check` for `Fga` (src/fga/operations/check.rs lines 73-94),
with the URL join and the network send passed in as the outcomes of the
two `?`-propagated external calls. A malformed-JSON success body makes
`response.json::<serde_json::Value>()` fail with a decode error. -/
def check (urlJoin : Except UrlParseErr Unit) (send : Except ReqwestErr Response) :
    WorkOsResult Bool CheckError :=
  match urlJoin with
  | .error e => .error (.UrlParseError e)
  | .ok _ =>
  match send with
  | .error e => .error (.RequestError e)
  | .ok raw =>
  match handle_unauthorized_or_generic_error raw with
  | .error e => .error e
  | .ok response =>
  match response.body.asJson with
  | none => .error (.RequestError (.decode "error decoding response body"))
  | some result =>
  match (result.get "allowed").bind Json.as_bool with
  | some allowed => .ok allowed
  | none => .error (.Operation CheckError.NotAllowed)

/-- An error returned from `DeleteResource` (src/fga/operations/delete_resource.rs):
an empty enum, the operation defines no domain-specific errors. -/
inductive DeleteResourceError : Type where

/-- An error returned from `DeleteFactor` (src/mfa/operations/delete_factor.rs):
an empty enum. -/
inductive DeleteFactorError : Type where

/-- An error returned from `VerifyOrganizationDomain`
(src/organization_domains/operations/verify_organization_domain.rs): an
empty enum. -/
inductive VerifyOrganizationDomainError : Type where

/-- An error returned from `ListResources`
(src/fga/operations/list_resources.rs): an empty enum. -/
inductive ListResourcesError : Type where

/-- An error returned from `ListOrganizationMemberships`
(src/user_management/operations/list_organization_memberships.rs): an
empty enum. -/
inductive ListOrganizationMembershipsError : Type where

/-- `DeleteResource::delete_resource` for `Fga`
(src/fga/operations/delete_resource.rs lines 63-80): URL join, send,
classifier, then `Ok(())` with no read of the response body. -/
def delete_resource (urlJoin : Except UrlParseErr Unit)
    (send : Except ReqwestErr Response) : WorkOsResult Unit DeleteResourceError :=
  match urlJoin with
  | .error e => .error (.UrlParseError e)
  | .ok _ =>
  match send with
  | .error e => .error (.RequestError e)
  | .ok raw =>
  match handle_unauthorized_or_generic_error raw with
  | .error e => .error e
  | .ok _ => .ok ()

/-- `DeleteFactor::delete_factor` for `Mfa`
(src/mfa/operations/delete_factor.rs lines 49-68): same shape as
`delete_resource`. -/
def delete_factor (urlJoin : Except UrlParseErr Unit)
    (send : Except ReqwestErr Response) : WorkOsResult Unit DeleteFactorError :=
  match urlJoin with
  | .error e => .error (.UrlParseError e)
  | .ok _ =>
  match send with
  | .error e => .error (.RequestError e)
  | .ok raw =>
  match handle_unauthorized_or_generic_error raw with
  | .error e => .error e
  | .ok _ => .ok ()

/-- `VerifyOrganizationDomain::verify_organization_domain`
(src/organization_domains/operations/verify_organization_domain.rs lines
51-72), generic over the success type `T` and its serde decoder
(`OrganizationDomain` and its derive live outside src; the JSON
machinery is an external collaborator per spec §1): classifier, then
`json::<T>()`, whose failure is a `reqwest` decode error propagated by
`?`. -/
def verify_organization_domain {T : Type} (decodeBody : Json → Option T)
    (urlJoin : Except UrlParseErr Unit) (send : Except ReqwestErr Response) :
    WorkOsResult T VerifyOrganizationDomainError :=
  match urlJoin with
  | .error e => .error (.UrlParseError e)
  | .ok _ =>
  match send with
  | .error e => .error (.RequestError e)
  | .ok raw =>
  match handle_unauthorized_or_generic_error raw with
  | .error e => .error e
  | .ok response =>
  match response.body.asJson with
  | none => .error (.RequestError (.decode "error decoding response body"))
  | some value =>
  match decodeBody value with
  | none => .error (.RequestError (.decode "error decoding response body"))
  | some result => .ok result

/-- Modelled from the spec: sort order for `PaginationParams` (the
`Order` type is not under src). -/
inductive Order where
  | asc : Order
  | desc : Order

/-- Modelled from the spec: `ListMetadata` — `{ before: optional cursor,
after: optional cursor }`, `null` when no further page exists in that
direction (spec §3, the struct itself is not under src). -/
structure ListMetadata where
  before : Option String
  after : Option String

/-- Modelled from the spec: `PaginatedList<T>` — `{ data: ordered
sequence of T, list_metadata }` (spec §3, the struct itself is not under
src). -/
structure PaginatedList (T : Type) where
  data : List T
  list_metadata : ListMetadata

/-- Modelled from the spec: `PaginationParams` — `{ limit, before,
after, order }`, all optional (spec §3, the struct itself is not under
src). -/
structure PaginationParams where
  limit : Option Nat := none
  before : Option String := none
  after : Option String := none
  order : Option Order := none

/-- Decode `Option String` from a JSON field value: `null` means absent
cursor. -/
def decodeOptCursor : Json → Option (Option String)
  | .null => some none
  | .str s => some (some s)
  | _ => none

/-- Decode `ListMetadata` from JSON (serde derive semantics for the
spec-modelled struct: an object with `before` and `after` fields). -/
def decodeListMetadata (j : Json) : Option ListMetadata :=
  match j.get "before", j.get "after" with
  | some b, some a =>
    match decodeOptCursor b, decodeOptCursor a with
    | some before, some after => some ⟨before, after⟩
    | _, _ => none
  | _, _ => none

/-- Serde decode of a JSON array into a `Vec<T>` given the item
decoder: every element must decode, in order. -/
def decodeItems {T : Type} (decodeItem : Json → Option T) : List Json → Option (List T)
  | [] => some []
  | j :: rest =>
    match decodeItem j, decodeItems decodeItem rest with
    | some t, some ts => some (t :: ts)
    | _, _ => none

/-- Decode a `PaginatedList T` from JSON given the item decoder: an
object with a `data` array and a `list_metadata` object. -/
def decodePaginatedList {T : Type} (decodeItem : Json → Option T) (j : Json) :
    Option (PaginatedList T) :=
  match j.get "data", j.get "list_metadata" with
  | some (.arr elems), some meta =>
    match decodeItems decodeItem elems, decodeListMetadata meta with
    | some data, some list_metadata => some ⟨data, list_metadata⟩
    | _, _ => none
  | _, _ => none

/-- `ListResources::list_resources` for `Fga`
(src/fga/operations/list_resources.rs lines 67-85), generic over the
item type and its decoder (`Resource` decode is serde machinery):
classifier, then `json::<PaginatedList<T>>()`. -/
def list_resources {T : Type} (decodeItem : Json → Option T)
    (urlJoin : Except UrlParseErr Unit) (send : Except ReqwestErr Response) :
    WorkOsResult (PaginatedList T) ListResourcesError :=
  match urlJoin with
  | .error e => .error (.UrlParseError e)
  | .ok _ =>
  match send with
  | .error e => .error (.RequestError e)
  | .ok raw =>
  match handle_unauthorized_or_generic_error raw with
  | .error e => .error e
  | .ok response =>
  match response.body.asJson with
  | none => .error (.RequestError (.decode "error decoding response body"))
  | some value =>
  match decodePaginatedList decodeItem value with
  | none => .error (.RequestError (.decode "error decoding response body"))
  | some list => .ok list

/-- Modelled from the spec: the payload of `AuthenticateError::WithError`
(the `AuthenticateError` type lives outside src; its shape — an `error`
discriminant string plus an `error_description` — follows spec §4.1 and
the accessors `error()` / `error_description()` used by the tests under
src). -/
structure AuthenticateErrorPayload where
  error : String
  error_description : String

/-- Modelled from the spec: `AuthenticateError` (outside src), the
generic authentication-exchange error body carrying the `error`
discriminant; `WithError` is the constructor the tests under src
pattern-match. -/
inductive AuthenticateError where
  | WithError (payload : AuthenticateErrorPayload) : AuthenticateError

/-- Modelled from the spec: untagged decode of `AuthenticateError`: an
object with string fields `error` and `error_description`. -/
def decodeAuthenticateError (j : Json) : Option AuthenticateError :=
  match (j.get "error").bind Json.as_str, (j.get "error_description").bind Json.as_str with
  | some e, some d => some (.WithError ⟨e, d⟩)
  | _, _ => none

/-- Modelled from the spec: `IsUnauthorized for AuthenticateError`
(outside src). The tests under src require the discriminants
`invalid_client` and `unauthorized_client` to be classified as
unauthorized. -/
def AuthenticateError.is_unauthorized : AuthenticateError → Bool
  | .WithError p => p.error = "invalid_client" || p.error = "unauthorized_client"

/-- An error returned from `AuthenticateWithDeviceCode`
(src/user_management/operations/authenticate_with_device_code.rs lines
32-67): internally tagged on the `error` field with snake_case names,
plus the untagged fallback variant `Authenticate`. -/
inductive AuthenticateWithDeviceCodeError where
  | AuthorizationPending (error_description : String) : AuthenticateWithDeviceCodeError
  | SlowDown (error_description : String) : AuthenticateWithDeviceCodeError
  | AccessDenied (error_description : String) : AuthenticateWithDeviceCodeError
  | ExpiredToken (error_description : String) : AuthenticateWithDeviceCodeError
  | Authenticate (e : AuthenticateError) : AuthenticateWithDeviceCodeError

/-- Serde decode of `AuthenticateWithDeviceCodeError` per the derive
attributes in src (`tag = "error"`, `rename_all = "snake_case"`, last
variant `#[serde(untagged)]`): when the `error` tag matches a named
variant the variant's `error_description` field is required; any other
tag value (or missing tag) falls back to the untagged
`Authenticate(AuthenticateError)` decode. -/
def decodeAuthenticateWithDeviceCodeError (j : Json) :
    Option AuthenticateWithDeviceCodeError :=
  match (j.get "error").bind Json.as_str with
  | some "authorization_pending" =>
    ((j.get "error_description").bind Json.as_str).map .AuthorizationPending
  | some "slow_down" =>
    ((j.get "error_description").bind Json.as_str).map .SlowDown
  | some "access_denied" =>
    ((j.get "error_description").bind Json.as_str).map .AccessDenied
  | some "expired_token" =>
    ((j.get "error_description").bind Json.as_str).map .ExpiredToken
  | _ => (decodeAuthenticateError j).map .Authenticate

/-- `IsUnauthorized for AuthenticateWithDeviceCodeError`
(src/user_management/operations/authenticate_with_device_code.rs lines
75-79): true exactly on `Authenticate(e)` with `e.is_unauthorized()`. -/
def AuthenticateWithDeviceCodeError.is_unauthorized :
    AuthenticateWithDeviceCodeError → Bool
  | .Authenticate e => e.is_unauthorized
  | _ => false

/-- Modelled from the spec: `HandleAuthenticateError::handle_authenticate_error`
(declared and called under src, implementation outside src). Per spec
§4.1: a 401 returns `Unauthorized` immediately, uniformly across all
operations; on any other non-success status the operation's own error
type attempts a tagged deserialization of the body first — a decoded
error that is unauthorized surfaces as `Unauthorized` (per the tests
under src), otherwise as `Operation` — and only on decode failure
defers to the generic unauthorized-or-unknown split; a success status
passes the response through. -/
def handle_authenticate_error {E : Type} (decodeErr : Json → Option E)
    (unauthorized : E → Bool) (response : Response) :
    Except (WorkOsError E) Response :=
  if response.status = 401 then
    .error .Unauthorized
  else if isSuccessStatus response.status then
    .ok response
  else
    match response.body.asJson.bind decodeErr with
    | some e => if unauthorized e then .error .Unauthorized else .error (.Operation e)
    | none => handle_unauthorized_or_generic_error response

/-- `AuthenticateWithDeviceCode::authenticate_with_device_code` for
`UserManagement`
(src/user_management/operations/authenticate_with_device_code.rs lines
119-146), generic over the success type and its decoder
(`AuthenticationResponse` decode is serde machinery): URL join, send,
`handle_authenticate_error`, then `json::<AuthenticationResponse>()`. -/
def authenticate_with_device_code {T : Type} (decodeResp : Json → Option T)
    (urlJoin : Except UrlParseErr Unit) (send : Except ReqwestErr Response) :
    WorkOsResult T AuthenticateWithDeviceCodeError :=
  match urlJoin with
  | .error e => .error (.UrlParseError e)
  | .ok _ =>
  match send with
  | .error e => .error (.RequestError e)
  | .ok raw =>
  match handle_authenticate_error decodeAuthenticateWithDeviceCodeError
      AuthenticateWithDeviceCodeError.is_unauthorized raw with
  | .error e => .error e
  | .ok response =>
  match response.body.asJson with
  | none => .error (.RequestError (.decode "error decoding response body"))
  | some value =>
  match decodeResp value with
  | none => .error (.RequestError (.decode "error decoding response body"))
  | some result => .ok result

/-- Inherit rule (src/fga/types/resource_type.rs lines 35-40):
`"relation"` from `"from"`. -/
structure InheritRule where
  relation : String
  «from» : String

/-- Relation rule DSL (src/fga/types/resource_type.rs lines 22-31), an
untagged enum with variants declared in the order `This`, `Inherit`,
`Union`. -/
inductive RelationRule where
  | This (this : Json) : RelationRule
  | Inherit (inherit : InheritRule) : RelationRule
  | Union (union : List RelationRule) : RelationRule

/-- A value produced by `Json.get` is a strict structural piece of the
object it was read from. -/
theorem Json.sizeOf_get {j v : Json} {key : String} (h : j.get key = some v) :
    sizeOf v < sizeOf j := by
  cases j with
  | obj fields =>
    simp only [Json.get, Option.map_eq_some'] at h
    obtain ⟨pair, hfind, hv⟩ := h
    have hmem : pair ∈ fields := List.mem_of_find?_eq_some hfind
    have h1 : sizeOf pair < sizeOf fields := List.sizeOf_lt_of_mem hmem
    cases pair with
    | mk k x =>
      have h2 : sizeOf (Json.obj fields) = 1 + sizeOf fields := by simp
      have h3 : sizeOf (k, x) = 1 + sizeOf k + sizeOf x := by simp
      have h4 : sizeOf x = sizeOf v := by rw [show x = v from hv]
      omega
  | null => simp [Json.get] at h
  | bool b => simp [Json.get] at h
  | num n => simp [Json.get] at h
  | str s => simp [Json.get] at h
  | arr elems => simp [Json.get] at h

/-- Serde decode of `InheritRule` per the derive in src: an object with
string fields `relation` and `from`. -/
def decodeInheritRule (j : Json) : Option InheritRule :=
  match (j.get "relation").bind Json.as_str, (j.get "from").bind Json.as_str with
  | some r, some f => some ⟨r, f⟩
  | _, _ => none

mutual

/-- Serde decode of the untagged enum `RelationRule` per the derive in
src: attempt each variant's shape in declaration order — `This` (object
with key `this`, any value), then `Inherit` (object whose `inherit`
value decodes as `InheritRule`), then `Union` (object whose `union`
value is an array each of whose elements recursively decodes) — and
return the first structural match. -/
def decodeRelationRule (j : Json) : Option RelationRule :=
  match j.get "this" with
  | some v => some (.This v)
  | none =>
  match (j.get "inherit").bind decodeInheritRule with
  | some ir => some (.Inherit ir)
  | none =>
  match hu : j.get "union" with
  | some (.arr elems) => (decodeRuleList elems).map .Union
  | _ => none
termination_by sizeOf j
decreasing_by
  have h1 : sizeOf (Json.arr elems) < sizeOf j := Json.sizeOf_get hu
  have h3 : sizeOf (Json.arr elems) = 1 + sizeOf elems := by simp
  omega

/-- Element-wise decode of a `union` array of relation rules (the
recursive `Vec<RelationRule>` decode). -/
def decodeRuleList : List Json → Option (List RelationRule)
  | [] => some []
  | x :: rest =>
    match decodeRelationRule x, decodeRuleList rest with
    | some r, some rs => some (r :: rs)
    | _, _ => none
termination_by l => sizeOf l
decreasing_by
  all_goals simp
  omega

end

/-- `Value::as_i64` (used only to build concrete list fixtures). -/
def Json.as_int : Json → Option Int
  | .num n => some n
  | _ => none

/-- Encode an optional cursor: `null` when absent. -/
def encodeCursor : Option String → Json
  | none => .null
  | some s => .str s

/-- JSON wire form of `ListMetadata`. -/
def encodeListMetadata (m : ListMetadata) : Json :=
  .obj [("before", encodeCursor m.before), ("after", encodeCursor m.after)]

/-- JSON wire form of a `PaginatedList T` given the item encoder. -/
def encodePaginatedList {T : Type} (encodeItem : T → Json) (l : PaginatedList T) : Json :=
  .obj [("data", .arr (l.data.map encodeItem)),
        ("list_metadata", encodeListMetadata l.list_metadata)]

/-- Client-side forward iteration loop of the pagination protocol (spec
§4.2): starting from a previous response's `after` cursor, reissue the
list operation with `after` set to that cursor and `before` unset,
collecting pages until a page's `after` cursor is absent (or the fuel
runs out, or a call fails). -/
def forwardPages {T E : Type}
    (fetch : PaginationParams → WorkOsResult (PaginatedList T) E) :
    Nat → Option String → List (PaginatedList T)
  | 0, _ => []
  | _ + 1, none => []
  | fuel + 1, some cursor =>
    match fetch { after := some cursor } with
    | .error _ => []
    | .ok page => page :: forwardPages fetch fuel page.list_metadata.after

/-- Client-side backward iteration loop of the pagination protocol
(spec §4.2): reissue with `before` set to the previous response's
`before` cursor and `after` unset, until a page's `before` cursor is
absent. -/
def backwardPages {T E : Type}
    (fetch : PaginationParams → WorkOsResult (PaginatedList T) E) :
    Nat → Option String → List (PaginatedList T)
  | 0, _ => []
  | _ + 1, none => []
  | fuel + 1, some cursor =>
    match fetch { before := some cursor } with
    | .error _ => []
    | .ok page => page :: backwardPages fetch fuel page.list_metadata.before

/-- Decoding inverts encoding for item lists, given the item
round-trip. -/
theorem decodeItems_encode {T : Type} {decodeItem : Json → Option T}
    {encodeItem : T → Json} (hrt : ∀ t, decodeItem (encodeItem t) = some t) :
    ∀ xs : List T, decodeItems decodeItem (xs.map encodeItem) = some xs := by
  intro xs
  induction xs with
  | nil => rfl
  | cons x rest ih => simp [List.map_cons, decodeItems, hrt x, ih]

/-- Decoding inverts encoding for paginated lists, given the item
round-trip. -/
theorem decodePaginatedList_encode {T : Type} {decodeItem : Json → Option T}
    {encodeItem : T → Json} (hrt : ∀ t, decodeItem (encodeItem t) = some t)
    (l : PaginatedList T) :
    decodePaginatedList decodeItem (encodePaginatedList encodeItem l) = some l := by
  have hitems := decodeItems_encode hrt l.data
  simp only [decodePaginatedList, encodePaginatedList, encodeListMetadata, Json.get,
    List.find?, decodeListMetadata, decodeOptCursor]
  cases l with
  | mk data meta =>
    cases meta with
    | mk before after =>
      simp only at hitems
      simp [hitems]
      cases before <;> cases after <;> simp [encodeCursor, decodeOptCursor]

/-- The list operation returns exactly the page the server serves, when
the server responds 200 with the page's JSON wire form. -/
theorem list_resources_of_served {T : Type} {decodeItem : Json → Option T}
    {encodeItem : T → Json} (hrt : ∀ t, decodeItem (encodeItem t) = some t)
    (l : PaginatedList T) (txt : String) :
    list_resources decodeItem (.ok ()) (.ok ⟨200, ⟨some (encodePaginatedList encodeItem l), txt⟩⟩) =
      .ok l := by
  simp [list_resources, handle_unauthorized_or_generic_error, isSuccessStatus,
    decodePaginatedList_encode hrt l]

/-- Membership in the spec's closed error taxonomy: `Operation`,
`Unauthorized`, `Unknown`, `UrlConstructionFailed` (`UrlParseError`),
`NetworkFailure` (`RequestError`) — everything declared in
`WorkOsError` except `IpAddrParseError`. -/
def isSpecErrorKind {E : Type} : WorkOsError E → Bool
  | .Operation _ => true
  | .Unauthorized => true
  | .Unknown _ _ => true
  | .UrlParseError _ => true
  | .IpAddrParseError _ => false
  | .RequestError _ => true

/-- An operation result is a success value or an error in the spec's
closed five-kind taxonomy. -/
def resultInSpecKinds {T E : Type} : WorkOsResult T E → Prop
  | .ok _ => True
  | .error e => isSpecErrorKind e = true

/-- Whether a `WorkOsResult` is a success. -/
def isOkResult {T E : Type} : WorkOsResult T E → Bool
  | .ok _ => true
  | .error _ => false

/-- C1: every HTTP response with status 401 — regardless of body
content, including empty or malformed bodies — is classified as the
`Unauthorized` error kind without the body being parsed, by the generic
classifier, by the authenticate-exchange refinement, and hence by every
operation (shown here for the FGA check and device-code authentication
pipelines). -/
theorem c1_status_401_always_unauthorized {E T : Type} (body : Body)
    (decodeErr : Json → Option E) (unauthorized : E → Bool)
    (decodeResp : Json → Option T) :
    handle_unauthorized_or_generic_error (E := E) ⟨401, body⟩ = .error .Unauthorized ∧
    handle_authenticate_error decodeErr unauthorized ⟨401, body⟩ = .error .Unauthorized ∧
    check (.ok ()) (.ok ⟨401, body⟩) = .error .Unauthorized ∧
    authenticate_with_device_code decodeResp (.ok ()) (.ok ⟨401, body⟩) =
      .error .Unauthorized := by
  refine ⟨rfl, rfl, ?_, ?_⟩ <;> rfl

/-- C2: every response with a non-401, non-success status is classified
as `Unknown{status, body}`: `Json` of the parsed value when the body
parses as JSON, otherwise `Text` of the raw body text; the
classification is a total function, returning an `Unknown` value for
every such body. -/
theorem c2_non_401_error_status_unknown {E : Type} (s : Nat) (body : Body)
    (h401 : s ≠ 401) (herr : isSuccessStatus s = false) :
    (∀ j, body.asJson = some j →
      handle_unauthorized_or_generic_error (E := E) ⟨s, body⟩ =
        .error (.Unknown s (.Json j))) ∧
    (body.asJson = none →
      handle_unauthorized_or_generic_error (E := E) ⟨s, body⟩ =
        .error (.Unknown s (.Text body.asText))) := by
  constructor
  · intro j hj
    simp [handle_unauthorized_or_generic_error, h401, herr, hj]
  · intro hj
    simp [handle_unauthorized_or_generic_error, h401, herr, hj]

/-- Witness for C2 at status 500 with a JSON body and at status 404
with a non-JSON body. -/
theorem c2_witness :
    handle_unauthorized_or_generic_error (E := CheckError)
        ⟨500, ⟨some (.obj [("message", .str "oops")]), "raw body text"⟩⟩ =
      .error (.Unknown 500 (.Json (.obj [("message", .str "oops")]))) ∧
    handle_unauthorized_or_generic_error (E := CheckError) ⟨404, ⟨none, "not found"⟩⟩ =
      .error (.Unknown 404 (.Text "not found")) :=
  ⟨(c2_non_401_error_status_unknown 500 _ (by decide) (by decide)).1 _ rfl,
   (c2_non_401_error_status_unknown 404 _ (by decide) (by decide)).2 rfl⟩

/-- The generic classifier only fails with `Unauthorized` or
`Unknown`, both in the spec's taxonomy. -/
theorem handle_generic_error_kind {E : Type} {resp : Response} {e : WorkOsError E}
    (h : handle_unauthorized_or_generic_error resp = .error e) :
    isSpecErrorKind e = true := by
  unfold handle_unauthorized_or_generic_error at h
  split at h
  · simp only [Except.error.injEq] at h
    subst h
    rfl
  · split at h
    · exact absurd h (by simp)
    · split at h <;>
        (simp only [Except.error.injEq] at h; subst h; rfl)

/-- The generic classifier passes a response through unchanged, and
only on a success status. -/
theorem handle_generic_ok {E : Type} {resp r : Response}
    (h : handle_unauthorized_or_generic_error (E := E) resp = .ok r) :
    r = resp ∧ isSuccessStatus resp.status = true := by
  unfold handle_unauthorized_or_generic_error at h
  split at h
  · exact absurd h (by simp)
  · split at h
    · simp only [Except.ok.injEq] at h
      subst h
      constructor
      · rfl
      · assumption
    · split at h <;> exact absurd h (by simp)

/-- The authenticate-exchange handler only fails with `Unauthorized`,
`Operation`, or the generic classifier's kinds. -/
theorem handle_authenticate_error_kind {E : Type} {decodeErr : Json → Option E}
    {unauthorized : E → Bool} {resp : Response} {e : WorkOsError E}
    (h : handle_authenticate_error decodeErr unauthorized resp = .error e) :
    isSpecErrorKind e = true := by
  unfold handle_authenticate_error at h
  split at h
  · simp only [Except.error.injEq] at h
    subst h
    rfl
  · split at h
    · exact absurd h (by simp)
    · split at h
      · split at h <;>
          (simp only [Except.error.injEq] at h; subst h; rfl)
      · exact handle_generic_error_kind h

/-- The authenticate-exchange handler passes a response through
unchanged, and only on a success status. -/
theorem handle_authenticate_ok {E : Type} {decodeErr : Json → Option E}
    {unauthorized : E → Bool} {resp r : Response}
    (h : handle_authenticate_error decodeErr unauthorized resp = .ok r) :
    r = resp ∧ isSuccessStatus resp.status = true := by
  unfold handle_authenticate_error at h
  split at h
  · exact absurd h (by simp)
  · split at h
    · simp only [Except.ok.injEq] at h
      subst h
      constructor
      · rfl
      · assumption
    · split at h
      · split at h <;> exact absurd h (by simp)
      · exact (handle_generic_ok h).imp_left id

/-- C3: each embedded operation's result is either a success value or
exactly one of the five spec error kinds (`Unauthorized`, `Operation`,
`Unknown`, `UrlParseError`, `RequestError` — never `IpAddrParseError`),
and whenever the transport delivered a response with a non-2xx status
the operation returns an error, never a success. -/
theorem c3_closed_error_taxonomy {T U V : Type} (uj : Except UrlParseErr Unit)
    (send : Except ReqwestErr Response) (decodeOrg : Json → Option T)
    (decodeItem : Json → Option U) (decodeResp : Json → Option V) :
    (resultInSpecKinds (check uj send) ∧
     resultInSpecKinds (delete_resource uj send) ∧
     resultInSpecKinds (delete_factor uj send) ∧
     resultInSpecKinds (verify_organization_domain decodeOrg uj send) ∧
     resultInSpecKinds (list_resources decodeItem uj send) ∧
     resultInSpecKinds (authenticate_with_device_code decodeResp uj send)) ∧
    (∀ resp, send = .ok resp → isSuccessStatus resp.status = false →
      isOkResult (check uj send) = false ∧
      isOkResult (delete_resource uj send) = false ∧
      isOkResult (delete_factor uj send) = false ∧
      isOkResult (verify_organization_domain decodeOrg uj send) = false ∧
      isOkResult (list_resources decodeItem uj send) = false ∧
      isOkResult (authenticate_with_device_code decodeResp uj send) = false) := by
  cases uj with
  | error e =>
    constructor
    · simp [check, delete_resource, delete_factor, verify_organization_domain,
        list_resources, authenticate_with_device_code, resultInSpecKinds, isSpecErrorKind]
    · intro resp hresp hfail
      simp [check, delete_resource, delete_factor, verify_organization_domain,
        list_resources, authenticate_with_device_code, isOkResult]
  | ok u =>
  cases send with
  | error e =>
    constructor
    · simp [check, delete_resource, delete_factor, verify_organization_domain,
        list_resources, authenticate_with_device_code, resultInSpecKinds, isSpecErrorKind]
    · intro resp hresp hfail
      cases hresp
  | ok resp =>
  constructor
  · refine ⟨?_, ?_, ?_, ?_, ?_, ?_⟩
    · cases hC : handle_unauthorized_or_generic_error (E := CheckError) resp with
      | error e =>
        simp only [check, hC, resultInSpecKinds]
        exact handle_generic_error_kind hC
      | ok r =>
        simp only [check, hC]
        split
        · simp [resultInSpecKinds, isSpecErrorKind]
        · split <;> simp [resultInSpecKinds, isSpecErrorKind]
    · cases hC : handle_unauthorized_or_generic_error (E := DeleteResourceError) resp with
      | error e =>
        simp only [delete_resource, hC, resultInSpecKinds]
        exact handle_generic_error_kind hC
      | ok r => simp [delete_resource, hC, resultInSpecKinds]
    · cases hC : handle_unauthorized_or_generic_error (E := DeleteFactorError) resp with
      | error e =>
        simp only [delete_factor, hC, resultInSpecKinds]
        exact handle_generic_error_kind hC
      | ok r => simp [delete_factor, hC, resultInSpecKinds]
    · cases hC : handle_unauthorized_or_generic_error (E := VerifyOrganizationDomainError) resp with
      | error e =>
        simp only [verify_organization_domain, hC, resultInSpecKinds]
        exact handle_generic_error_kind hC
      | ok r =>
        simp only [verify_organization_domain, hC]
        split
        · simp [resultInSpecKinds, isSpecErrorKind]
        · split <;> simp [resultInSpecKinds, isSpecErrorKind]
    · cases hC : handle_unauthorized_or_generic_error (E := ListResourcesError) resp with
      | error e =>
        simp only [list_resources, hC, resultInSpecKinds]
        exact handle_generic_error_kind hC
      | ok r =>
        simp only [list_resources, hC]
        split
        · simp [resultInSpecKinds, isSpecErrorKind]
        · split <;> simp [resultInSpecKinds, isSpecErrorKind]
    · cases hC : handle_authenticate_error decodeAuthenticateWithDeviceCodeError
          AuthenticateWithDeviceCodeError.is_unauthorized resp with
      | error e =>
        simp only [authenticate_with_device_code, hC, resultInSpecKinds]
        exact handle_authenticate_error_kind hC
      | ok r =>
        simp only [authenticate_with_device_code, hC]
        split
        · simp [resultInSpecKinds, isSpecErrorKind]
        · split <;> simp [resultInSpecKinds, isSpecErrorKind]
  · rintro r ⟨⟩ hfail
    refine ⟨?_, ?_, ?_, ?_, ?_, ?_⟩
    · cases hC : handle_unauthorized_or_generic_error (E := CheckError) resp with
      | error e => simp [check, hC, isOkResult]
      | ok r' => exact absurd (handle_generic_ok hC).2 (by simp [hfail])
    · cases hC : handle_unauthorized_or_generic_error (E := DeleteResourceError) resp with
      | error e => simp [delete_resource, hC, isOkResult]
      | ok r' => exact absurd (handle_generic_ok hC).2 (by simp [hfail])
    · cases hC : handle_unauthorized_or_generic_error (E := DeleteFactorError) resp with
      | error e => simp [delete_factor, hC, isOkResult]
      | ok r' => exact absurd (handle_generic_ok hC).2 (by simp [hfail])
    · cases hC : handle_unauthorized_or_generic_error (E := VerifyOrganizationDomainError) resp with
      | error e => simp [verify_organization_domain, hC, isOkResult]
      | ok r' => exact absurd (handle_generic_ok hC).2 (by simp [hfail])
    · cases hC : handle_unauthorized_or_generic_error (E := ListResourcesError) resp with
      | error e => simp [list_resources, hC, isOkResult]
      | ok r' => exact absurd (handle_generic_ok hC).2 (by simp [hfail])
    · cases hC : handle_authenticate_error decodeAuthenticateWithDeviceCodeError
          AuthenticateWithDeviceCodeError.is_unauthorized resp with
      | error e => simp [authenticate_with_device_code, hC, isOkResult]
      | ok r' => exact absurd (handle_authenticate_ok hC).2 (by simp [hfail])

/-- Witness for C3 at a 404 text response: all six operations stay in
the taxonomy and none returns a success. -/
theorem c3_witness :
    isOkResult (check (.ok ()) (.ok ⟨404, ⟨none, "not found"⟩⟩)) = false ∧
    isOkResult (delete_resource (.ok ()) (.ok ⟨404, ⟨none, "not found"⟩⟩)) = false := by
  have h := (c3_closed_error_taxonomy (.ok ()) (.ok ⟨404, ⟨none, "not found"⟩⟩)
    (fun _ => (none : Option Unit)) (fun _ => (none : Option Unit))
    (fun _ => (none : Option Unit))).2 ⟨404, ⟨none, "not found"⟩⟩ rfl (by decide)
  exact ⟨h.1, h.2.1⟩

/-- C4: when the HTTP response has a success status but the success
body fails to decode into the operation's declared result type — a
non-JSON body for the FGA check (declared type `serde_json::Value`), or
a non-JSON body or JSON that does not match the declared struct for the
organization-domain verify — the operation returns the
transport/network-failure kind (`RequestError`, a decode error), never
`Unknown` and never an `Operation` error. -/
theorem c4_success_body_decode_failure_is_network_failure {T : Type} (s : Nat)
    (body : Body) (decodeOrg : Json → Option T) (hs : isSuccessStatus s = true) :
    (body.asJson = none →
      check (.ok ()) (.ok ⟨s, body⟩) =
        .error (.RequestError (.decode "error decoding response body")) ∧
      verify_organization_domain decodeOrg (.ok ()) (.ok ⟨s, body⟩) =
        .error (.RequestError (.decode "error decoding response body"))) ∧
    (∀ j, body.asJson = some j → decodeOrg j = none →
      verify_organization_domain decodeOrg (.ok ()) (.ok ⟨s, body⟩) =
        .error (.RequestError (.decode "error decoding response body"))) := by
  have h401 : ¬(s = 401) := by
    intro h
    subst h
    exact absurd hs (by decide)
  have hcl : ∀ (E : Type), handle_unauthorized_or_generic_error (E := E) ⟨s, body⟩ =
      .ok ⟨s, body⟩ := by
    intro E
    simp [handle_unauthorized_or_generic_error, h401, hs]
  constructor
  · intro hj
    constructor
    · simp [check, hcl CheckError, hj]
    · simp [verify_organization_domain, hcl VerifyOrganizationDomainError, hj]
  · intro j hj hd
    simp [verify_organization_domain, hcl VerifyOrganizationDomainError, hj, hd]

/-- Witness for C4 at a 200 response with a non-JSON body and at a 200
response whose JSON does not match the declared struct. -/
theorem c4_witness :
    check (.ok ()) (.ok ⟨200, ⟨none, "oops"⟩⟩) =
      .error (.RequestError (.decode "error decoding response body")) ∧
    verify_organization_domain (fun _ => (none : Option Unit)) (.ok ())
        (.ok ⟨200, ⟨some .null, "null"⟩⟩) =
      .error (.RequestError (.decode "error decoding response body")) := by
  have h1 := c4_success_body_decode_failure_is_network_failure 200 ⟨none, "oops"⟩
    (fun _ => (none : Option Unit)) (by decide)
  have h2 := c4_success_body_decode_failure_is_network_failure 200 ⟨some .null, "null"⟩
    (fun _ => (none : Option Unit)) (by decide)
  exact ⟨(h1.1 rfl).1, h2.2 .null rfl rfl⟩

/-- C5: for the device-code exchange, an HTTP 400 whose JSON body
carries the error discriminant `authorization_pending` (resp.
`slow_down`, `access_denied`, `expired_token`) produces the `Operation`
error with the corresponding named variant, not the generic `Unknown`
kind; a body whose discriminant matches none of the named variants
(e.g. `invalid_grant`) falls back to the generic
`Authenticate(WithError ...)` shape. -/
theorem c5_device_code_named_error_variants {T : Type} (decodeResp : Json → Option T)
    (d txt : String) :
    authenticate_with_device_code decodeResp (.ok ())
        (.ok ⟨400, ⟨some (.obj [("error", .str "authorization_pending"),
          ("error_description", .str d)]), txt⟩⟩) =
      .error (.Operation (.AuthorizationPending d)) ∧
    authenticate_with_device_code decodeResp (.ok ())
        (.ok ⟨400, ⟨some (.obj [("error", .str "slow_down"),
          ("error_description", .str d)]), txt⟩⟩) =
      .error (.Operation (.SlowDown d)) ∧
    authenticate_with_device_code decodeResp (.ok ())
        (.ok ⟨400, ⟨some (.obj [("error", .str "access_denied"),
          ("error_description", .str d)]), txt⟩⟩) =
      .error (.Operation (.AccessDenied d)) ∧
    authenticate_with_device_code decodeResp (.ok ())
        (.ok ⟨400, ⟨some (.obj [("error", .str "expired_token"),
          ("error_description", .str d)]), txt⟩⟩) =
      .error (.Operation (.ExpiredToken d)) ∧
    authenticate_with_device_code decodeResp (.ok ())
        (.ok ⟨400, ⟨some (.obj [("error", .str "invalid_grant"),
          ("error_description", .str d)]), txt⟩⟩) =
      .error (.Operation (.Authenticate (.WithError ⟨"invalid_grant", d⟩))) :=
  ⟨rfl, rfl, rfl, rfl, rfl⟩

/-- C6: a delete operation returning unit, given a response with any
2xx status (such as 204 No Content), yields `Ok(())` for every body,
performing no decode of the response body. -/
theorem c6_delete_no_content_yields_unit (s : Nat) (body : Body)
    (hs : isSuccessStatus s = true) :
    delete_resource (.ok ()) (.ok ⟨s, body⟩) = .ok () ∧
    delete_factor (.ok ()) (.ok ⟨s, body⟩) = .ok () := by
  have h401 : ¬(s = 401) := by
    intro h
    subst h
    exact absurd hs (by decide)
  constructor
  · simp [delete_resource, handle_unauthorized_or_generic_error, h401, hs]
  · simp [delete_factor, handle_unauthorized_or_generic_error, h401, hs]

/-- Witness for C6 at a 204 No-Content response with an empty body. -/
theorem c6_witness :
    delete_resource (.ok ()) (.ok ⟨204, ⟨none, ""⟩⟩) = .ok () ∧
    delete_factor (.ok ()) (.ok ⟨204, ⟨none, ""⟩⟩) = .ok () :=
  c6_delete_no_content_yields_unit 204 ⟨none, ""⟩ (by decide)

/-- C9: for the authenticate-with-device-code operation, an HTTP 400
whose JSON body carries the discriminant `invalid_client` or
`unauthorized_client` surfaces as the `Unauthorized` error kind — so at
the public interface `Unauthorized` is not produced exclusively by HTTP
401 responses. -/
theorem c9_invalid_client_surfaces_unauthorized {T : Type} (decodeResp : Json → Option T)
    (d txt : String) :
    authenticate_with_device_code decodeResp (.ok ())
        (.ok ⟨400, ⟨some (.obj [("error", .str "invalid_client"),
          ("error_description", .str d)]), txt⟩⟩) = .error .Unauthorized ∧
    authenticate_with_device_code decodeResp (.ok ())
        (.ok ⟨400, ⟨some (.obj [("error", .str "unauthorized_client"),
          ("error_description", .str d)]), txt⟩⟩) = .error .Unauthorized :=
  ⟨rfl, rfl⟩

/-- C10: for the FGA check, a 2xx response whose body is valid JSON
returns `Ok(b)` exactly when the JSON contains a boolean field
`allowed` with value `b`; every 2xx valid-JSON body lacking a boolean
`allowed` field returns the `Operation(NotAllowed)` error, not a
decode/transport error. -/
theorem c10_check_allowed_field (s : Nat) (body : Body) (j : Json)
    (hs : isSuccessStatus s = true) (hj : body.asJson = some j) :
    (∀ b, (j.get "allowed").bind Json.as_bool = some b →
      check (.ok ()) (.ok ⟨s, body⟩) = .ok b) ∧
    ((j.get "allowed").bind Json.as_bool = none →
      check (.ok ()) (.ok ⟨s, body⟩) = .error (.Operation .NotAllowed)) := by
  have h401 : ¬(s = 401) := by
    intro h
    subst h
    exact absurd hs (by decide)
  have hcl : handle_unauthorized_or_generic_error (E := CheckError) ⟨s, body⟩ =
      .ok ⟨s, body⟩ := by
    simp [handle_unauthorized_or_generic_error, h401, hs]
  constructor
  · intro b hb
    simp [check, hcl, hj, hb]
  · intro hb
    simp [check, hcl, hj, hb]

/-- Witness for C10: a 200 response with `allowed: true` returns
`Ok(true)`; a 200 response with valid JSON lacking a boolean `allowed`
returns `Operation(NotAllowed)`. -/
theorem c10_witness :
    check (.ok ()) (.ok ⟨200, ⟨some (.obj [("allowed", .bool true)]), ""⟩⟩) = .ok true ∧
    check (.ok ()) (.ok ⟨200, ⟨some (.obj [("warrant_token", .str "tok")]), ""⟩⟩) =
      .error (.Operation .NotAllowed) :=
  ⟨(c10_check_allowed_field 200 ⟨some (.obj [("allowed", .bool true)]), ""⟩
      (.obj [("allowed", .bool true)]) (by decide) rfl).1 true rfl,
   (c10_check_allowed_field 200 ⟨some (.obj [("warrant_token", .str "tok")]), ""⟩
      (.obj [("warrant_token", .str "tok")]) (by decide) rfl).2 rfl⟩

/-- Forward iteration stops as soon as the `after` cursor is absent. -/
theorem forwardPages_none {T E : Type}
    (fetch : PaginationParams → WorkOsResult (PaginatedList T) E) (n : Nat) :
    forwardPages fetch n none = [] := by
  cases n <;> rfl

/-- Backward iteration stops as soon as the `before` cursor is absent. -/
theorem backwardPages_none {T E : Type}
    (fetch : PaginationParams → WorkOsResult (PaginatedList T) E) (n : Nat) :
    backwardPages fetch n none = [] := by
  cases n <;> rfl

/-- C7: for a three-page backing dataset with pages A, B, C linked by
cursors, driving the list operation forward — reissuing with `after`
set to the previous response's `list_metadata.after` and `before` unset
— yields page B then page C and then stops at C's absent `after`
cursor, for any surplus fuel; symmetrically, driving backward from C
with `before` cursors yields B then A. -/
theorem c7_pagination_round_trip {T : Type} (decodeItem : Json → Option T)
    (encodeItem : T → Json) (hrt : ∀ t, decodeItem (encodeItem t) = some t)
    (serve : PaginationParams → Response)
    (pa pb pc : PaginatedList T) (cAB cBC cBA cCB : String) (n : Nat)
    (hA : pa.list_metadata = ⟨none, some cAB⟩)
    (hB : pb.list_metadata = ⟨some cBA, some cBC⟩)
    (hC : pc.list_metadata = ⟨some cCB, none⟩)
    (hsAB : serve { after := some cAB } =
      ⟨200, ⟨some (encodePaginatedList encodeItem pb), ""⟩⟩)
    (hsBC : serve { after := some cBC } =
      ⟨200, ⟨some (encodePaginatedList encodeItem pc), ""⟩⟩)
    (hsCB : serve { before := some cCB } =
      ⟨200, ⟨some (encodePaginatedList encodeItem pb), ""⟩⟩)
    (hsBA : serve { before := some cBA } =
      ⟨200, ⟨some (encodePaginatedList encodeItem pa), ""⟩⟩) :
    forwardPages (fun p => list_resources decodeItem (.ok ()) (.ok (serve p)))
        (n + 2) pa.list_metadata.after = [pb, pc] ∧
    backwardPages (fun p => list_resources decodeItem (.ok ()) (.ok (serve p)))
        (n + 2) pc.list_metadata.before = [pb, pa] := by
  constructor
  · simp only [hA, forwardPages, hsAB, list_resources_of_served hrt, hB, hsBC,
      list_resources_of_served hrt, hC, forwardPages_none]
  · simp only [hC, backwardPages, hsCB, list_resources_of_served hrt, hB, hsBA,
      list_resources_of_served hrt, hA, backwardPages_none]

/-- First fixture page for the pagination witness. -/
def fixtureA : PaginatedList Int := ⟨[1, 2], ⟨none, some "a-end"⟩⟩

/-- Second fixture page for the pagination witness. -/
def fixtureB : PaginatedList Int := ⟨[3, 4], ⟨some "b-start", some "b-end"⟩⟩

/-- Third fixture page for the pagination witness. -/
def fixtureC : PaginatedList Int := ⟨[5], ⟨some "c-start", none⟩⟩

/-- A three-page server fixture serving pages by cursor. -/
def fixtureServe (p : PaginationParams) : Response :=
  if p.after = some "a-end" then ⟨200, ⟨some (encodePaginatedList Json.num fixtureB), ""⟩⟩
  else if p.after = some "b-end" then ⟨200, ⟨some (encodePaginatedList Json.num fixtureC), ""⟩⟩
  else if p.before = some "c-start" then ⟨200, ⟨some (encodePaginatedList Json.num fixtureB), ""⟩⟩
  else if p.before = some "b-start" then ⟨200, ⟨some (encodePaginatedList Json.num fixtureA), ""⟩⟩
  else ⟨200, ⟨some (encodePaginatedList Json.num fixtureA), ""⟩⟩

/-- Witness for C7 on a concrete three-page integer fixture. -/
theorem c7_witness :
    forwardPages (fun p => list_resources Json.as_int (.ok ()) (.ok (fixtureServe p)))
        2 fixtureA.list_metadata.after = [fixtureB, fixtureC] ∧
    backwardPages (fun p => list_resources Json.as_int (.ok ()) (.ok (fixtureServe p)))
        2 fixtureC.list_metadata.before = [fixtureB, fixtureA] :=
  c7_pagination_round_trip Json.as_int Json.num (fun _ => rfl) fixtureServe
    fixtureA fixtureB fixtureC "a-end" "b-end" "b-start" "c-start" 0
    rfl rfl rfl rfl rfl rfl rfl

/-- C8: deserialization of a relation rule attempts the three untagged
shapes in enum declaration order — `This` (object with key `this`),
then `Inherit` (object with key `inherit`), then `Union` (object with
key `union`) — and returns the first variant that structurally matches,
so an input matching more than one shape produces the earlier-declared
variant. -/
theorem c8_relation_rule_decode_order (j : Json) :
    (∀ v, j.get "this" = some v → decodeRelationRule j = some (.This v)) ∧
    (j.get "this" = none → ∀ ir, (j.get "inherit").bind decodeInheritRule = some ir →
      decodeRelationRule j = some (.Inherit ir)) ∧
    (j.get "this" = none → (j.get "inherit").bind decodeInheritRule = none →
      ∀ elems rules, j.get "union" = some (.arr elems) →
      decodeRuleList elems = some rules →
      decodeRelationRule j = some (.Union rules)) := by
  refine ⟨?_, ?_, ?_⟩
  · intro v hv
    unfold decodeRelationRule
    simp [hv]
  · intro hthis ir hir
    unfold decodeRelationRule
    simp [hthis, hir]
  · intro hthis hinh elems rules hu hr
    unfold decodeRelationRule
    simp only [hthis, hinh]
    split
    · rename_i elems' heq
      rw [hu] at heq
      injection heq with h1
      injection h1 with h2
      subst h2
      simp [hr]
    · rename_i heq
      exact (heq elems hu).elim

/-- Witness for C8: an object matching all three shapes at once (keys
`this`, a well-formed `inherit`, and a well-formed `union`) decodes to
the earliest-declared variant, `This`. -/
theorem c8_witness :
    decodeRelationRule (.obj [("this", .null),
      ("inherit", .obj [("relation", .str "parent"), ("from", .str "folder")]),
      ("union", .arr [])]) = some (.This .null) :=
  (c8_relation_rule_decode_order (.obj [("this", .null),
      ("inherit", .obj [("relation", .str "parent"), ("from", .str "folder")]),
      ("union", .arr [])])).1 .null rfl

end WorkOsSpec
